import Mathlib

/-!
Verification development for the certificate/App-ID lifecycle manager of the
iloader repository.  The UI layer (src/pages/Certificates.tsx,
src/pages/Cleanup.tsx) is embedded directly; the Tauri backend commands it
invokes (the certificate cache, the revoke call, the bulk cleanup) are not
part of the shipped sources and are modelled from the specification where a
claim depends on them.

The first half of the file is the embedding (data model and operations), the
second half the theorems.
-/

/-- The Certificate record of src/pages/Certificates.tsx (lines 6-12). -/
structure Certificate where
  name : String
  certificateId : String
  serialNumber : String
  machineName : String
  machineId : String
deriving DecidableEq

/-- A raw certificate as delivered by the backend before validation: in the
TypeScript source every field of a raw entry may be absent (`undefined`) or
empty, which the `cert.field || default` idiom treats alike.  An absent field
is `none`. -/
structure RawCertificate where
  name : Option String
  certificateId : Option String
  serialNumber : Option String
  machineName : Option String
  machineId : Option String
deriving DecidableEq

/-- The JavaScript `v || d` idiom on an optional string: both `undefined` and
the empty string are falsy and yield the default. -/
def jsOr : Option String → String → String
  | some s, d => if s = "" then d else s
  | none, d => d

/-- The per-entry normalisation of loadCertificates
(src/pages/Certificates.tsx lines 28-33): default a missing `name` to
"Unknown" and the remaining missing fields to the empty string. -/
def normalizeCert (c : RawCertificate) : Certificate :=
  { name := jsOr c.name "Unknown"
    certificateId := jsOr c.certificateId ""
    serialNumber := jsOr c.serialNumber ""
    machineName := jsOr c.machineName ""
    machineId := jsOr c.machineId "" }

/-- The validation pipeline of loadCertificates
(src/pages/Certificates.tsx lines 28-34): map each raw entry through
normalisation, then drop entries whose `certificateId` or `serialNumber`
is empty. -/
def validateCerts (certs : List RawCertificate) : List Certificate :=
  (certs.map normalizeCert).filter
    (fun cert => cert.certificateId != "" && cert.serialNumber != "")

/-- Character-list matching helper: does the first list start the second? -/
def listStartMatch : List Char → List Char → Bool
  | [], _ => true
  | _ :: _, [] => false
  | a :: as, b :: bs => a == b && listStartMatch as bs

/-- Character-list substring search, scanning the haystack left to right. -/
def listIncludes (needle : List Char) : List Char → Bool
  | [] => listStartMatch needle []
  | c :: rest => listStartMatch needle (c :: rest) || listIncludes needle rest

/-- The JavaScript `haystack.includes(needle)` substring test used by the
error classification in src/pages/Certificates.tsx line 42. -/
def strIncludes (s sub : String) : Bool := listIncludes sub.data s.data

/-- Propositional substring containment: `sub` occurs contiguously in `s`. -/
def HasSubstr (s sub : String) : Prop := ∃ pre post, s = pre ++ sub ++ post

/-- The error taxonomy of the spec: a `ParseFieldError` wraps the detailed
known-issue message built by loadCertificates; every other fetch failure is a
generic `RemoteError` carrying the raw message. -/
inductive LoadError where
  | parseFieldError (detailed : String) : LoadError
  | remoteError (msg : String) : LoadError
deriving DecidableEq

/-- The detailed known-issue message built in src/pages/Certificates.tsx
lines 43-51: a fixed Russian-language remediation checklist followed by the
original failure message. -/
def detailedMachineIdError (errorMsg : String) : String :=
  "Ошибка парсинга данных от Apple API (machineId).\n\n" ++
  "Это известная проблема, которая может возникать из-за изменений в формате API Apple.\n\n" ++
  "Возможные решения:\n" ++
  "1. Выйдите и войдите снова в приложении\n" ++
  "2. Отзовите все существующие сертификаты и создайте новые\n" ++
  "3. Проверьте наличие обновлений iloader\n" ++
  "4. Сообщите об этой проблеме разработчикам\n\n" ++
  "Техническая информация: " ++ errorMsg

/-- The four documented remediation steps (re-authenticate, revoke and
recreate certificates, check for updates, report upstream), as they appear in
the detailed message. -/
def machineIdRemediationSteps : List String :=
  ["1. Выйдите и войдите снова в приложении",
   "2. Отзовите все существующие сертификаты и создайте новые",
   "3. Проверьте наличие обновлений iloader",
   "4. Сообщите об этой проблеме разработчикам"]

/-- The recogniser of src/pages/Certificates.tsx line 42: a failure message
is treated as the known malformed machine-identifier issue when it contains
one of the documented substrings. -/
def isMachineIdParseError (errorMsg : String) : Bool :=
  strIncludes errorMsg "machineId" || strIncludes errorMsg "Parse" ||
    strIncludes errorMsg "machineld"

/-- The catch branch of loadCertificates (src/pages/Certificates.tsx
lines 37-54): a recognised malformed machine-identifier failure is rethrown
as the detailed known-issue error; every other failure is rethrown unchanged. -/
def classifyLoadError (errorMsg : String) : LoadError :=
  if isMachineIdParseError errorMsg then
    LoadError.parseFieldError (detailedMachineIdError errorMsg)
  else LoadError.remoteError errorMsg

/-- The cache freshness window: 5 minutes, in seconds (README.md, section
Certificate Caching). -/
def cacheTTL : Nat := 300

/-- Modelled from the spec: the state of the backend CertificateCache behind
the `get_certificates_cached` Tauri command, which is not part of the shipped
sources.  `entry` is the cached list with its fetch timestamp (seconds);
`waiters` is `some ws` exactly when a fetch is in flight, with `ws` the
callers waiting on it; `fetchCount` counts remote `listCertificates` calls;
`results` records each delivered result, newest first, keyed by caller. -/
structure CacheSys where
  entry : Option (List Certificate × Nat)
  waiters : Option (List Nat)
  fetchCount : Nat
  results : List (Nat × Except String (List Certificate))

/-- Modelled from the spec: is the cached entry fresh at time `now`?  An
entry is fresh iff `now - timestamp < TTL (5 minutes)`. -/
def isFreshEntry : Option (List Certificate × Nat) → Nat → Bool
  | some (_, ts), now => decide (now - ts < cacheTTL)
  | none, _ => false

/-- Modelled from the spec: a cache miss either joins the in-flight fetch as
an additional waiter or, when none is in flight, starts a new remote fetch. -/
def joinOrStart (s : CacheSys) (c : Nat) : CacheSys :=
  match s.waiters with
  | some ws => { s with waiters := some (ws ++ [c]) }
  | none => { s with waiters := some [c], fetchCount := s.fetchCount + 1 }

/-- The observable events of the cache model: a caller invoking
`get(forceRefresh)` at a time, the in-flight fetch resolving, and an explicit
invalidation. -/
inductive CacheEvent where
  | call (caller : Nat) (forceRefresh : Bool) (now : Nat) : CacheEvent
  | resolve (outcome : Except String (List Certificate)) (now : Nat) : CacheEvent
  | invalidate : CacheEvent

/-- Modelled from the spec: one step of CertificateCache.  A non-forced call
finding a fresh entry is served immediately from the cache; otherwise the
caller joins the in-flight fetch or starts one.  A resolving fetch delivers
its outcome to every waiter, replaces the entry on success and leaves it
unchanged on failure.  `invalidate` discards the entry so the next call
re-fetches. -/
def cacheStep (s : CacheSys) : CacheEvent → CacheSys
  | CacheEvent.call c force now =>
    match s.entry with
    | some (d, ts) =>
      if force = false ∧ now - ts < cacheTTL then
        { s with results := (c, Except.ok d) :: s.results }
      else joinOrStart s c
    | none => joinOrStart s c
  | CacheEvent.resolve out now =>
    match s.waiters with
    | none => s
    | some ws =>
      { entry := match out with
          | Except.ok d => some (d, now)
          | Except.error _ => s.entry
        waiters := none
        fetchCount := s.fetchCount
        results := ws.map (fun c => (c, out)) ++ s.results }
  | CacheEvent.invalidate => { s with entry := none }

/-- Running a sequence of cache events from a starting state. -/
def cacheRun (s : CacheSys) (es : List CacheEvent) : CacheSys :=
  es.foldl cacheStep s

/-- The trace of C1: a batch of concurrent `get(false)` calls all issued at
time `now`, followed by the resolution of the fetch. -/
def concurrentLoadTrace (callers : List Nat) (now : Nat)
    (out : Except String (List Certificate)) (resolveTime : Nat) :
    List CacheEvent :=
  callers.map (fun c => CacheEvent.call c false now) ++
    [CacheEvent.resolve out resolveTime]

/-- Modelled from the spec: the manager revoke operation behind the
`revoke_certificate` Tauri command.  On remote success it invalidates the
cache and triggers an immediate forced reload by the given caller; on remote
failure it leaves the cache untouched and propagates the error. -/
def managerRevoke (s : CacheSys) (remoteOutcome : Except String Unit)
    (revoker : Nat) (now : Nat) : CacheSys × Except String Unit :=
  match remoteOutcome with
  | Except.ok _ =>
    (cacheStep (cacheStep s CacheEvent.invalidate)
      (CacheEvent.call revoker true now), Except.ok ())
  | Except.error e => (s, Except.error e)

/-- The CleanupResult record of src/pages/Cleanup.tsx (lines 6-10). -/
structure CleanupResult where
  certificatesRevoked : Nat
  appIdsDeleted : Nat
  errors : List String
deriving DecidableEq

/-- Did a per-item remote sub-operation succeed? -/
def isOkOutcome : Except String Unit → Bool
  | Except.ok _ => true
  | Except.error _ => false

/-- The failure messages of a list of per-item sub-operation outcomes, in
order. -/
def outcomeErrors (l : List (Except String Unit)) : List String :=
  l.filterMap (fun o => match o with
    | Except.ok _ => none
    | Except.error e => some e)

/-- Modelled from the spec: the bulk cleanup behind the `cleanup_all` Tauri
command.  When the remote authority is unreachable the whole call fails with
a single top-level error and no result.  Otherwise every certificate and
every App ID is attempted; counts reflect only the successful sub-items and
each failed sub-item contributes one entry to `errors`. -/
def runCleanup (reachable : Bool)
    (certOutcomes appIdOutcomes : List (Except String Unit)) :
    Except String CleanupResult :=
  if reachable then
    Except.ok
      { certificatesRevoked := (certOutcomes.filter isOkOutcome).length
        appIdsDeleted := (appIdOutcomes.filter isOkOutcome).length
        errors := outcomeErrors certOutcomes ++ outcomeErrors appIdOutcomes }
  else Except.error "cannot reach the remote signing authority"

/-- The UI state of the Certificates page: the certificate list, the
`loading` React state and the `loadingRef` in-flight guard
(src/pages/Certificates.tsx lines 15-17). -/
structure CertUiState where
  certificates : List Certificate
  loading : Bool
  loadingRef : Bool
deriving DecidableEq

/-- The loadCertificates callback of src/pages/Certificates.tsx
(lines 19-72), as a function of the fetch outcome the backend would deliver.
A call finding the in-flight guard set returns immediately and runs nothing
(result `none`).  Otherwise the guard and the loading flag are raised, the
fetch outcome is either validated and stored or classified and rethrown, and
the `finally` block lowers both flags again. -/
def loadCertificates (ui : CertUiState)
    (fetchOutcome : Except String (List RawCertificate)) :
    CertUiState × Option (Except LoadError (List Certificate)) :=
  if ui.loadingRef then (ui, none)
  else
    match fetchOutcome with
    | Except.ok rawCerts =>
      ({ certificates := validateCerts rawCerts
         loading := false
         loadingRef := false },
       some (Except.ok (validateCerts rawCerts)))
    | Except.error e =>
      ({ certificates := ui.certificates
         loading := false
         loadingRef := false },
       some (Except.error (classifyLoadError e)))

/-- The revokeCertificate callback of src/pages/Certificates.tsx
(lines 74-87): the remote revoke is issued; only on its success does
`promise.then(loadCertificates)` trigger a reload, while on failure the UI
state is left untouched and the error is surfaced. -/
def revokeCertificate (ui : CertUiState)
    (remoteOutcome : Except String Unit)
    (fetchOutcome : Except String (List RawCertificate)) :
    CertUiState × Option String :=
  match remoteOutcome with
  | Except.ok _ => ((loadCertificates ui fetchOutcome).1, none)
  | Except.error e => (ui, some ("Failed to revoke certificate: " ++ e))

/-- The UI state of the Cleanup page: the `loading` flag and the stored
result (src/pages/Cleanup.tsx lines 13-14). -/
structure CleanupUiState where
  loading : Bool
  result : Option CleanupResult
deriving DecidableEq

/-- The performCleanup callback of src/pages/Cleanup.tsx (lines 16-50), as a
function of the confirmation answer and the outcome the backend would
deliver.  The returned Bool is whether the remote `cleanup_all` command was
invoked.  A call while loading, or an unconfirmed call, changes nothing and
invokes nothing.  On a confirmed run the result is stored and loading
cleared on success; on failure the promise rejects after `setLoading(true)`
with no `finally`, so loading stays raised and the result stays cleared. -/
def performCleanup (ui : CleanupUiState) (confirmed : Bool)
    (outcome : Except String CleanupResult) : CleanupUiState × Bool :=
  if ui.loading then (ui, false)
  else if confirmed = false then (ui, false)
  else
    match outcome with
    | Except.ok r => ({ loading := false, result := some r }, true)
    | Except.error _ => ({ loading := true, result := none }, true)

/-- C2: the output of load never contains an entry with empty `certificateId`
or `serialNumber`; entries missing those required fields are dropped; a
missing (or empty) `name` is defaulted to the placeholder "Unknown"; and the
surviving entries keep the order in which they were received (the output is a
sublist of the normalised input, so no re-sorting happens). -/
theorem validateCerts_normalization (raw : List RawCertificate) :
    (∀ c ∈ validateCerts raw, c.certificateId ≠ "" ∧ c.serialNumber ≠ "") ∧
    List.Sublist (validateCerts raw) (raw.map normalizeCert) ∧
    (∀ r : RawCertificate, (r.name = none ∨ r.name = some "") →
      (normalizeCert r).name = "Unknown") ∧
    (∀ r : RawCertificate,
      (r.certificateId = none ∨ r.certificateId = some "" ∨
       r.serialNumber = none ∨ r.serialNumber = some "") →
      normalizeCert r ∉ validateCerts raw) := by
  refine ⟨?_, ?_, ?_, ?_⟩
  · intro c hc
    have h := (List.mem_filter.mp hc).2
    simp only [Bool.and_eq_true, bne_iff_ne, ne_eq] at h
    exact ⟨h.1, h.2⟩
  · exact List.filter_sublist _
  · intro r h
    rcases h with h | h <;> simp [normalizeCert, jsOr, h]
  · intro r h hmem
    have hok := (List.mem_filter.mp hmem).2
    simp only [Bool.and_eq_true, bne_iff_ne, ne_eq] at hok
    rcases h with h | h | h | h <;>
      simp [normalizeCert, jsOr, h] at hok

/-- Witness for C2 at a concrete raw list: an entry with a missing serial
number is dropped, an entry with a missing name gets the placeholder. -/
theorem validateCerts_normalization_witness :
    (∀ c ∈ validateCerts
        [⟨none, some "id1", some "sn1", some "m", some "mid"⟩,
         ⟨some "b", some "id2", none, some "m", some "mid"⟩],
      c.certificateId ≠ "" ∧ c.serialNumber ≠ "") ∧
    (normalizeCert ⟨none, some "id1", some "sn1", some "m", some "mid"⟩).name
      = "Unknown" :=
  ⟨(validateCerts_normalization _).1,
   (validateCerts_normalization []).2.2.1 _ (Or.inl rfl)⟩

set_option maxRecDepth 100000 in
/-- C3: a fetch failure whose message contains the documented
malformed-device-identifier substring is surfaced as a `ParseFieldError`
whose detailed message contains the original failure message and all four
documented remediation steps; a failure not recognised by the documented
matcher propagates unchanged as a `RemoteError`. -/
theorem classifyLoadError_spec (msg : String) :
    (strIncludes msg "machineId" = true →
      classifyLoadError msg
          = LoadError.parseFieldError (detailedMachineIdError msg) ∧
      HasSubstr (detailedMachineIdError msg) msg ∧
      ∀ step ∈ machineIdRemediationSteps,
        HasSubstr (detailedMachineIdError msg) step) ∧
    (isMachineIdParseError msg = false →
      classifyLoadError msg = LoadError.remoteError msg) := by
  constructor
  · intro h
    refine ⟨?_, ?_, ?_⟩
    · simp [classifyLoadError, isMachineIdParseError, h]
    · refine ⟨"Ошибка парсинга данных от Apple API (machineId).\n\n" ++
        "Это известная проблема, которая может возникать из-за изменений в формате API Apple.\n\n" ++
        "Возможные решения:\n" ++
        "1. Выйдите и войдите снова в приложении\n" ++
        "2. Отзовите все существующие сертификаты и создайте новые\n" ++
        "3. Проверьте наличие обновлений iloader\n" ++
        "4. Сообщите об этой проблеме разработчикам\n\n" ++
        "Техническая информация: ", "", ?_⟩
      rw [String.append_empty]
      rfl
    · intro step hstep
      simp only [machineIdRemediationSteps, List.mem_cons,
        List.not_mem_nil, or_false] at hstep
      rcases hstep with rfl | rfl | rfl | rfl
      · refine ⟨"Ошибка парсинга данных от Apple API (machineId).\n\n" ++
          "Это известная проблема, которая может возникать из-за изменений в формате API Apple.\n\n" ++
          "Возможные решения:\n",
          "\n" ++
          "2. Отзовите все существующие сертификаты и создайте новые\n" ++
          "3. Проверьте наличие обновлений iloader\n" ++
          "4. Сообщите об этой проблеме разработчикам\n\n" ++
          "Техническая информация: " ++ msg, ?_⟩
        cases msg
        rfl
      · refine ⟨"Ошибка парсинга данных от Apple API (machineId).\n\n" ++
          "Это известная проблема, которая может возникать из-за изменений в формате API Apple.\n\n" ++
          "Возможные решения:\n" ++
          "1. Выйдите и войдите снова в приложении\n",
          "\n" ++
          "3. Проверьте наличие обновлений iloader\n" ++
          "4. Сообщите об этой проблеме разработчикам\n\n" ++
          "Техническая информация: " ++ msg, ?_⟩
        cases msg
        rfl
      · refine ⟨"Ошибка парсинга данных от Apple API (machineId).\n\n" ++
          "Это известная проблема, которая может возникать из-за изменений в формате API Apple.\n\n" ++
          "Возможные решения:\n" ++
          "1. Выйдите и войдите снова в приложении\n" ++
          "2. Отзовите все существующие сертификаты и создайте новые\n",
          "\n" ++
          "4. Сообщите об этой проблеме разработчикам\n\n" ++
          "Техническая информация: " ++ msg, ?_⟩
        cases msg
        rfl
      · refine ⟨"Ошибка парсинга данных от Apple API (machineId).\n\n" ++
          "Это известная проблема, которая может возникать из-за изменений в формате API Apple.\n\n" ++
          "Возможные решения:\n" ++
          "1. Выйдите и войдите снова в приложении\n" ++
          "2. Отзовите все существующие сертификаты и создайте новые\n" ++
          "3. Проверьте наличие обновлений iloader\n",
          "\n\n" ++ "Техническая информация: " ++ msg, ?_⟩
        cases msg
        rfl
  · intro h
    simp [classifyLoadError, h]

/-- Witness for C3: a concrete recognised failure message is wrapped as a
`ParseFieldError`, and a concrete unrecognised one propagates unchanged. -/
theorem classifyLoadError_spec_witness :
    (strIncludes "failed: Parse(machineId)" "machineId" = true ∧
      classifyLoadError "failed: Parse(machineId)"
        = LoadError.parseFieldError
            (detailedMachineIdError "failed: Parse(machineId)")) ∧
    classifyLoadError "network timeout" = LoadError.remoteError "network timeout" :=
  ⟨⟨by decide, ((classifyLoadError_spec "failed: Parse(machineId)").1
      (by decide)).1⟩,
   (classifyLoadError_spec "network timeout").2 (by decide)⟩

/-- Helper for the single-flight property: while a fetch is in flight and the
entry is not fresh, any batch of non-forced calls merely appends the callers
to the waiter list, starting no new fetch and changing nothing else. -/
theorem cacheRun_calls_join (now : Nat) (cs : List Nat) :
    ∀ (s : CacheSys) (ws : List Nat), s.waiters = some ws →
      isFreshEntry s.entry now = false →
      cacheRun s (cs.map (fun c => CacheEvent.call c false now))
        = { s with waiters := some (ws ++ cs) } := by
  induction cs with
  | nil =>
    intro s ws hw hf
    obtain ⟨e, w, f, r⟩ := s
    simp only [List.map_nil, cacheRun, List.foldl_nil, List.append_nil]
    have hw2 : w = some ws := hw
    subst hw2
    rfl
  | cons c cs ih =>
    intro s ws hw hf
    simp only [List.map_cons, cacheRun, List.foldl_cons]
    have h1 : cacheStep s (CacheEvent.call c false now)
        = { s with waiters := some (ws ++ [c]) } := by
      cases he : s.entry with
      | none => simp [cacheStep, he, joinOrStart, hw]
      | some p =>
        obtain ⟨d, ts⟩ := p
        have hnf : ¬ (now - ts < cacheTTL) := by
          rw [he] at hf
          simpa [isFreshEntry] using hf
        simp [cacheStep, he, joinOrStart, hw, hnf]
    rw [h1]
    have h2 := ih { s with waiters := some (ws ++ [c]) } (ws ++ [c]) rfl
      (by simpa using hf)
    simp only [cacheRun] at h2
    rw [h2]
    simp [List.append_assoc]

/-- C1: from a state with no fresh cache entry and no fetch in flight, a
batch of concurrent `get(false)` calls makes exactly one remote fetch
(`fetchCount` rises by one; later callers only join the waiter list), and
when the fetch resolves every one of those callers receives the same
outcome. -/
theorem singleFlight_concurrentLoad (callers : List Nat)
    (entry0 : Option (List Certificate × Nat)) (fc : Nat)
    (rs : List (Nat × Except String (List Certificate))) (now rt : Nat)
    (out : Except String (List Certificate))
    (hne : callers ≠ []) (hstale : isFreshEntry entry0 now = false) :
    cacheRun ⟨entry0, none, fc, rs⟩ (concurrentLoadTrace callers now out rt)
      = ⟨(match out with
          | Except.ok d => some (d, rt)
          | Except.error _ => entry0),
         none, fc + 1, callers.map (fun c => (c, out)) ++ rs⟩ := by
  obtain ⟨c, cs, rfl⟩ := List.exists_cons_of_ne_nil hne
  unfold concurrentLoadTrace
  simp only [List.map_cons, cacheRun, List.foldl_append, List.foldl_cons,
    List.foldl_nil]
  have h1 : cacheStep ⟨entry0, none, fc, rs⟩ (CacheEvent.call c false now)
      = ⟨entry0, some [c], fc + 1, rs⟩ := by
    cases entry0 with
    | none => simp [cacheStep, joinOrStart]
    | some p =>
      obtain ⟨d, ts⟩ := p
      have hnf : ¬ (now - ts < cacheTTL) := by
        simpa [isFreshEntry] using hstale
      simp [cacheStep, joinOrStart, hnf]
  rw [h1]
  have h2 := cacheRun_calls_join now cs ⟨entry0, some [c], fc + 1, rs⟩ [c] rfl
    (by simpa using hstale)
  simp only [cacheRun] at h2
  rw [h2]
  cases out <;> rfl

/-- Witness for C1: three concurrent callers over an empty cache trigger one
fetch and all three receive the fetched list. -/
theorem singleFlight_concurrentLoad_witness :
    cacheRun ⟨none, none, 0, []⟩
        (concurrentLoadTrace [1, 2, 3] 0 (Except.ok []) 1)
      = ⟨some ([], 1), none, 1,
         [(1, Except.ok []), (2, Except.ok []), (3, Except.ok [])]⟩ :=
  singleFlight_concurrentLoad [1, 2, 3] none 0 [] 0 1 (Except.ok [])
    (by decide) (by decide)

/-- Helper: the aggregated error list has exactly one entry per failed
sub-item. -/
theorem outcomeErrors_length (l : List (Except String Unit)) :
    (outcomeErrors l).length = (l.filter (fun o => !(isOkOutcome o))).length := by
  induction l with
  | nil => rfl
  | cons o rest ih =>
    cases o with
    | ok u => simpa [outcomeErrors, isOkOutcome] using ih
    | error e => simpa [outcomeErrors, isOkOutcome] using ih

/-- C4: whenever the remote authority is reachable, `runCleanup` does not
raise: it returns a `CleanupResult` whose counts are exactly the numbers of
successful certificate revocations and App-ID deletions and whose error list
has one entry per failed sub-item; only total failure (authority unreachable)
raises a top-level error and yields no result. -/
theorem runCleanup_partial_failure
    (certOutcomes appIdOutcomes : List (Except String Unit)) :
    (∃ r : CleanupResult,
      runCleanup true certOutcomes appIdOutcomes = Except.ok r ∧
      r.certificatesRevoked = (certOutcomes.filter isOkOutcome).length ∧
      r.appIdsDeleted = (appIdOutcomes.filter isOkOutcome).length ∧
      r.errors.length
        = (certOutcomes.filter (fun o => !(isOkOutcome o))).length
          + (appIdOutcomes.filter (fun o => !(isOkOutcome o))).length) ∧
    (∃ e : String, runCleanup false certOutcomes appIdOutcomes
      = Except.error e) := by
  refine ⟨⟨_, rfl, rfl, rfl, ?_⟩, ⟨_, rfl⟩⟩
  simp [runCleanup, List.length_append, outcomeErrors_length]

/-- Witness for C4, the documented 3-of-5 scenario: three certificates
revoke, two fail, the run does not raise, reports `certificatesRevoked = 3`
and two errors. -/
theorem runCleanup_partial_failure_witness :
    ∃ r : CleanupResult,
      runCleanup true
          [Except.ok (), Except.ok (), Except.error "boom1",
           Except.ok (), Except.error "boom2"] []
        = Except.ok r ∧
      r.certificatesRevoked
        = ([Except.ok (), Except.ok (), Except.error "boom1",
            Except.ok (), Except.error "boom2"].filter isOkOutcome).length ∧
      r.appIdsDeleted = (List.filter isOkOutcome []).length ∧
      r.errors.length
        = ([Except.ok (), Except.ok (), Except.error "boom1",
            Except.ok (), Except.error "boom2"].filter
              (fun o => !(isOkOutcome o))).length
          + (List.filter (fun o => !(isOkOutcome o)) []).length :=
  (runCleanup_partial_failure
      [Except.ok (), Except.ok (), Except.error "boom1",
       Except.ok (), Except.error "boom2"] []).1

/-- C5: after a successful revoke the cache entry is gone and the forced
reload has started a remote fetch; a subsequent `get(false)` is not served
from any cached snapshot (its step leaves the delivered results unchanged)
and, once the fetch resolves, that caller receives the remote fetch result
rather than the pre-revoke data. -/
theorem revoke_invalidates_cache (d : List Certificate) (ts fc : Nat)
    (rs : List (Nat × Except String (List Certificate)))
    (rv now c now2 rt : Nat) (out : Except String (List Certificate)) :
    managerRevoke ⟨some (d, ts), none, fc, rs⟩ (Except.ok ()) rv now
      = (⟨none, some [rv], fc + 1, rs⟩, Except.ok ()) ∧
    (cacheStep ⟨none, some [rv], fc + 1, rs⟩
        (CacheEvent.call c false now2)).results = rs ∧
    cacheRun ⟨none, some [rv], fc + 1, rs⟩
        [CacheEvent.call c false now2, CacheEvent.resolve out rt]
      = ⟨(match out with
          | Except.ok nd => some (nd, rt)
          | Except.error _ => none),
         none, fc + 1, (rv, out) :: (c, out) :: rs⟩ := by
  refine ⟨rfl, rfl, ?_⟩
  cases out <;> rfl

/-- Witness for C5 at concrete data: revoking over a cached snapshot
invalidates it, the following `get(false)` is answered by the new remote
fetch. -/
theorem revoke_invalidates_cache_witness :
    managerRevoke ⟨some ([], 10), none, 4, []⟩ (Except.ok ()) 8 20
      = (⟨none, some [8], 5, []⟩, Except.ok ()) ∧
    (cacheStep ⟨none, some [8], 5, []⟩
        (CacheEvent.call 9 false 21)).results = [] ∧
    cacheRun ⟨none, some [8], 5, []⟩
        [CacheEvent.call 9 false 21, CacheEvent.resolve (Except.ok []) 22]
      = ⟨some ([], 22), none, 5,
         (8, Except.ok []) :: (9, Except.ok []) :: []⟩ :=
  revoke_invalidates_cache [] 10 4 [] 8 20 9 21 22 (Except.ok [])

/-- C6: a failing revoke leaves every piece of certificate state untouched
and propagates the remote error: the modelled manager returns the cache
state unchanged, and the UI callback leaves the certificate list as it was
(no optimistic local removal) while surfacing the failure message. -/
theorem revoke_failure_preserves_state (ui : CertUiState) (s : CacheSys)
    (e : String) (rv now : Nat)
    (fetchOutcome : Except String (List RawCertificate)) :
    managerRevoke s (Except.error e) rv now = (s, Except.error e) ∧
    revokeCertificate ui (Except.error e) fetchOutcome
      = (ui, some ("Failed to revoke certificate: " ++ e)) := by
  exact ⟨rfl, rfl⟩

/-- Witness for C6 at concrete state. -/
theorem revoke_failure_preserves_state_witness :
    managerRevoke ⟨none, none, 0, []⟩ (Except.error "denied") 1 5
      = (⟨none, none, 0, []⟩, Except.error "denied") ∧
    revokeCertificate ⟨[], false, false⟩ (Except.error "denied")
        (Except.ok [])
      = (⟨[], false, false⟩,
         some ("Failed to revoke certificate: " ++ "denied")) :=
  revoke_failure_preserves_state ⟨[], false, false⟩ ⟨none, none, 0, []⟩
    "denied" 1 5 (Except.ok [])

/-- C7: a cache entry is fresh iff `now - timestamp < 300` seconds.  A fresh
entry is served with no remote call, a stale one is never served and starts
a re-fetch.  The documented scenario holds: `get(false)` at t=0 fetches,
at t=200 is served from the cache with no new fetch, and at t=310 starts a
new remote fetch. -/
theorem cacheTTL_freshness (d : List Certificate) (ts now fc : Nat)
    (rs : List (Nat × Except String (List Certificate))) (c : Nat) :
    (now - ts < cacheTTL →
      cacheStep ⟨some (d, ts), none, fc, rs⟩ (CacheEvent.call c false now)
        = ⟨some (d, ts), none, fc, (c, Except.ok d) :: rs⟩) ∧
    (¬ (now - ts < cacheTTL) →
      cacheStep ⟨some (d, ts), none, fc, rs⟩ (CacheEvent.call c false now)
        = ⟨some (d, ts), some [c], fc + 1, rs⟩) ∧
    cacheRun ⟨none, none, 0, []⟩
        [CacheEvent.call 1 false 0, CacheEvent.resolve (Except.ok d) 0,
         CacheEvent.call 2 false 200, CacheEvent.call 3 false 310]
      = ⟨some (d, 0), some [3], 2, [(2, Except.ok d), (1, Except.ok d)]⟩ := by
  refine ⟨?_, ?_, ?_⟩
  · intro h
    simp [cacheStep, h]
  · intro h
    simp [cacheStep, joinOrStart, h]
  · rfl

/-- Witness for C7: the freshness test at t=200 over a t=0 entry. -/
theorem cacheTTL_freshness_witness :
    cacheStep ⟨some ([], 0), none, 1, []⟩ (CacheEvent.call 2 false 200)
      = ⟨some ([], 0), none, 1, [(2, Except.ok [])]⟩ :=
  (cacheTTL_freshness [] 0 200 1 [] 2).1 (by decide)

/-- C8: running the cleanup when zero certificates and zero App IDs exist
does not fail and returns a result with zero counts and no errors. -/
theorem runCleanup_empty_state :
    runCleanup true [] [] = Except.ok ⟨0, 0, []⟩ := rfl

/-- C9: a cleanup invocation while one is already in progress, or one whose
confirmation prompt is declined, invokes no remote cleanup (the Bool
component is false) and leaves the stored result and loading state exactly
as they were. -/
theorem performCleanup_guard (ui : CleanupUiState) (confirmed : Bool)
    (outcome : Except String CleanupResult) :
    (ui.loading = true → performCleanup ui confirmed outcome = (ui, false)) ∧
    (confirmed = false → performCleanup ui confirmed outcome = (ui, false)) := by
  constructor
  · intro h
    simp [performCleanup, h]
  · intro h
    cases hl : ui.loading <;> simp [performCleanup, h, hl]

/-- Witness for C9: a declined confirmation with no cleanup in progress
changes nothing and issues nothing. -/
theorem performCleanup_guard_witness :
    performCleanup ⟨false, none⟩ false (Except.ok ⟨0, 0, []⟩)
      = (⟨false, none⟩, false) :=
  (performCleanup_guard ⟨false, none⟩ false (Except.ok ⟨0, 0, []⟩)).2 rfl

/-- C10: every load attempt that actually runs (the guard was clear), whether
the fetch succeeds or fails — including the reclassified parse-error path —
finishes with the in-flight guard and the loading flag lowered, so a
subsequent load is never blocked by a finished earlier load (it runs and
produces a result). -/
theorem loadCertificates_resets_flags (ui : CertUiState)
    (outcome : Except String (List RawCertificate))
    (h : ui.loadingRef = false) :
    (loadCertificates ui outcome).1.loadingRef = false ∧
    (loadCertificates ui outcome).1.loading = false ∧
    ((loadCertificates ui outcome).2).isSome = true ∧
    ∀ outcome2 : Except String (List RawCertificate),
      ((loadCertificates (loadCertificates ui outcome).1 outcome2).2).isSome
        = true := by
  cases outcome with
  | ok raw =>
    refine ⟨by simp [loadCertificates, h], by simp [loadCertificates, h],
      by simp [loadCertificates, h], ?_⟩
    intro outcome2
    cases outcome2 <;> simp [loadCertificates, h]
  | error e =>
    refine ⟨by simp [loadCertificates, h], by simp [loadCertificates, h],
      by simp [loadCertificates, h], ?_⟩
    intro outcome2
    cases outcome2 <;> simp [loadCertificates, h]

/-- Witness for C10: a failing parse-classified load still resets both
flags and a following load runs. -/
theorem loadCertificates_resets_flags_witness :
    (loadCertificates ⟨[], false, false⟩
        (Except.error "Parse(machineId)")).1.loadingRef = false ∧
    (loadCertificates ⟨[], false, false⟩
        (Except.error "Parse(machineId)")).1.loading = false ∧
    ((loadCertificates ⟨[], false, false⟩
        (Except.error "Parse(machineId)")).2).isSome = true ∧
    ∀ outcome2 : Except String (List RawCertificate),
      ((loadCertificates
          (loadCertificates ⟨[], false, false⟩
            (Except.error "Parse(machineId)")).1 outcome2).2).isSome
        = true :=
  loadCertificates_resets_flags ⟨[], false, false⟩
    (Except.error "Parse(machineId)") rfl
